import Mathlib

/-!
# Verification of the card-storage-cdn synchronization scripts

Shallow embedding of the pure decision logic of `auto_sync.py`,
`fetch_card_set.py` and `download_card_images.py`:

* card type classification (`create_cards_structure`, `fetch_card_set`),
* set-code normalization and new-set detection (`normalize_set_name`,
  `compare_sets`),
* manifest update (`update_manifest` in both scripts, `increment_version`),
* archetype id assignment (`create_archetype_structure`,
  `save_archetype_to_file`),
* collection-card identifier assignment
  (`create_collection_cards_structure`, the collection-card block of
  `fetch_card_set`),
* the result shape of `process_new_set`, and
* the image-download idempotence behaviour (`download_card_image`,
  `download_and_resize_image`).

Python strings are modelled as Lean `String` (the scripts only apply
case-folding and character classes to ASCII set codes and English type
strings, where `Char.toLower`/`Char.isAlphanum` agree with Python's
`str.lower` and the regex class `[a-zA-Z0-9]`).  The file system is
modelled as an association list from path to content, and the network as
an explicit fetch function passed as a parameter.
-/

/-- Python's `str.lower` (ASCII case-folding, as used on set codes and
type strings). -/
def pyLower (s : String) : String :=
  ⟨s.toList.map Char.toLower⟩

/-- Helper for `pySplitDot`: accumulates the current field (reversed). -/
def splitDotAux : List Char → List Char → List String
  | [], acc => [⟨acc.reverse⟩]
  | x :: t, acc =>
      if x = '.' then ⟨acc.reverse⟩ :: splitDotAux t []
      else splitDotAux t (x :: acc)

/-- Python's `version.split('.')` (and Lean's `splitOn "."`):
`"1.0.0" ↦ ["1", "0", "0"]`, `"" ↦ [""]`. -/
def pySplitDot (s : String) : List String :=
  splitDotAux s.toList []

/-- Python's `'.'.join(parts)`. -/
def joinDot : List String → String
  | [] => ""
  | [s] => s
  | s :: t => s ++ "." ++ joinDot t

/-- Value of a non-empty all-digit character list. -/
def digitsToNat? (l : List Char) : Option Nat :=
  if l.isEmpty ∨ ¬ l.all Char.isDigit then none
  else some (l.foldl (fun n c => n * 10 + (c.toNat - '0'.toNat)) 0)

/-- Python's `int(s)` on the decimal strings the scripts encounter
(optional leading `-`, then digits); exotic accepted forms such as
surrounding whitespace or `_` separators are out of scope. -/
def pyToInt? (s : String) : Option Int :=
  match s.toList with
  | '-' :: rest => (digitsToNat? rest).map fun n => -(n : Int)
  | l => (digitsToNat? l).map fun n => (n : Int)

/-- Contiguous-sublist test on character lists. -/
def containsSub (needle : List Char) : List Char → Bool
  | [] => needle.isEmpty
  | c :: t => needle.isPrefixOf (c :: t) || containsSub needle t

/-- Python's `needle in hay` substring test. -/
def substr (needle hay : String) : Bool :=
  containsSub needle.toList hay.toList

/-- `auto_sync.py` `create_cards_structure`, lines 246-265: the base-type
if/elif chain over the remote `type` string.  The chain checks, in order,
Normal, Effect, Fusion, Synchro, Xyz, Link, Ritual, Spell, Trap and
defaults to `"Normal"`. -/
def classifyAutoSync (card_type : String) : String :=
  if substr "Normal" card_type then "Normal"
  else if substr "Effect" card_type then "Effect"
  else if substr "Fusion" card_type then "Fusion"
  else if substr "Synchro" card_type then "Synchro"
  else if substr "Xyz" card_type then "Xyz"
  else if substr "Link" card_type then "Link"
  else if substr "Ritual" card_type then "Ritual"
  else if substr "Spell" card_type then "Spell"
  else if substr "Trap" card_type then "Trap"
  else "Normal"

/-- `fetch_card_set.py`, lines 232-281: Spell/Trap are decided on the
remote `type` string (mapping to `"Magic"`/`"Trap"`), then monsters are
classified from the `typeline` string: Synchro, Fusion, Xyz, Link, then
`is_effect` (`'Effect' in typeline`), defaulting to `"Normal"`. -/
def classifyFetch (card_type typeline : String) : String :=
  if substr "Spell" card_type then "Magic"
  else if substr "Trap" card_type then "Trap"
  else if substr "Synchro" typeline then "Synchro"
  else if substr "Fusion" typeline then "Fusion"
  else if substr "Xyz" typeline then "Xyz"
  else if substr "Link" typeline then "Link"
  else if substr "Effect" typeline then "Effect"
  else "Normal"

/-! ## Set-code normalization and new-set detection (`auto_sync.py`) -/

/-- `auto_sync.py` `normalize_set_name`, lines 123-128: lower-case, strip
every character outside `[a-zA-Z0-9]`, keep at most 10 characters. -/
def normalize_set_name (set_name : String) : String :=
  ⟨((pyLower set_name).toList.filter fun c => c.isAlphanum).take 10⟩

/-- The fourth candidate of `compare_sets`, line 144:
`set_name.lower().replace(' ', '').replace('-', '')[:10]`. -/
def simplifiedName (set_name : String) : String :=
  ⟨((pyLower set_name).toList.filter fun c => c ≠ ' ' ∧ c ≠ '-').take 10⟩

/-- A remote set descriptor as used by `compare_sets` (`set_name` and
`set_code` fields of the API object). -/
structure ApiSet where
  set_name : String
  set_code : String
deriving DecidableEq, Repr

/-- The four candidate codes built in `compare_sets`, lines 140-145. -/
def possibleCodes (a : ApiSet) : List String :=
  [pyLower a.set_code,
   normalize_set_name a.set_code,
   normalize_set_name a.set_name,
   simplifiedName a.set_name]

/-- `auto_sync.py` `compare_sets`, lines 130-157: a remote set is kept as
new when none of its candidate codes occurs in the locally collected set
of identifiers; each kept set is paired with its suggested code
`set_code.lower()`. -/
def compareSets (existing : List String) (apiSets : List ApiSet) :
    List (ApiSet × String) :=
  apiSets.filterMap fun a =>
    if (possibleCodes a).any (fun c => existing.contains c) then none
    else some (a, pyLower a.set_code)

/-! ## Manifest model and the two manifest updaters -/

/-- One `{file, date}` record of a manifest `updates` list. -/
structure UpdateRecord where
  file : String
  date : String
deriving DecidableEq, Repr

/-- One manifest data section (`baseFile` plus its `updates` list). -/
structure ManifestSection where
  baseFile : String
  updates : List UpdateRecord
deriving DecidableEq, Repr

/-- The manifest document: version, timestamp and the four data
sections. -/
structure Manifest where
  version : String
  lastUpdated : String
  cards : ManifestSection
  collections : ManifestSection
  collectionCards : ManifestSection
  archetypes : ManifestSection
deriving DecidableEq, Repr

/-- `fetch_card_set.py` `increment_version`, lines 94-105: split on `.`,
and when there are exactly three parts whose last parses as an integer,
increment it; any failure returns the version unchanged. -/
def increment_version (version : String) : String :=
  let parts := pySplitDot version
  if parts.length = 3 then
    match pyToInt? (parts.getD 2 "") with
    | some n => joinDot [parts.getD 0 "", parts.getD 1 "", toString (n + 1)]
    | none => version
  else version

/-- The version bump of `auto_sync.py` `update_manifest`, lines 671-673:
`version_parts[2] = str(int(version_parts[2]) + 1)` with no guard, so a
version with fewer than three dot-separated parts, or a non-integer third
part, raises (modelled as `none`: the whole update fails and nothing is
written). -/
def autoIncrementVersion (version : String) : Option String :=
  let parts := pySplitDot version
  if parts.length < 3 then none
  else
    match pyToInt? (parts.getD 2 "") with
    | some n => some (joinDot (parts.set 2 (toString (n + 1))))
    | none => none

example : increment_version "1.0.0" = "1.0.1" := by decide
example : autoIncrementVersion "1.2.9" = some "1.2.10" := by decide
example : normalize_set_name "Starter Deck: Yugi!" = "starterdec" := by decide
example : simplifiedName "Stax-Deck One" = "staxdeckon" := by decide

/-- `auto_sync.py` `update_manifest`, lines 685-711: a record is appended
only when the exact `{file, date}` record (not just the `file`) is absent
from the list. -/
def appendUnique (l : List UpdateRecord) (r : UpdateRecord) : List UpdateRecord :=
  if l.contains r then l else l ++ [r]

/-- The body of the per-set loop of `auto_sync.py` `update_manifest`,
lines 679-711: append (with exact-record dedup) the three data records
for one set code, plus the archetype record when the set is flagged. -/
def autoSyncAddSet (now : String) (setsWithArchetypes : List String)
    (acc : Manifest) (code : String) : Manifest :=
  let acc := { acc with cards := { acc.cards with
    updates := appendUnique acc.cards.updates
      ⟨"cards/" ++ code ++ ".json", now⟩ } }
  let acc := { acc with collections := { acc.collections with
    updates := appendUnique acc.collections.updates
      ⟨"collections/" ++ code ++ ".json", now⟩ } }
  let acc := { acc with collectionCards := { acc.collectionCards with
    updates := appendUnique acc.collectionCards.updates
      ⟨"collection-cards/" ++ code ++ ".json", now⟩ } }
  if setsWithArchetypes.contains code then
    { acc with archetypes := { acc.archetypes with
      updates := appendUnique acc.archetypes.updates
        ⟨"archetypes/" ++ code ++ ".json", now⟩ } }
  else acc

/-- `auto_sync.py` `update_manifest`, lines 603-727, as a function of the
loaded manifest, the current time, the processed set codes and the subset
with archetypes.  `none` models the exception path taken when the version
string cannot be bumped (nothing is written).  The version is bumped and
`lastUpdated` stamped once, before the per-set loop. -/
def autoSyncUpdateManifest (m : Manifest) (now : String)
    (newSetsProcessed : List String) (setsWithArchetypes : List String) :
    Option Manifest :=
  match autoIncrementVersion m.version with
  | none => none
  | some v =>
    let m1 := { m with version := v, lastUpdated := now }
    some (newSetsProcessed.foldl (autoSyncAddSet now setsWithArchetypes) m1)

/-- `fetch_card_set.py` `update_manifest`, lines 160-165: refresh the date
of the first record whose `file` matches. -/
def updateFirstDate : List UpdateRecord → String → String → List UpdateRecord
  | [], _, _ => []
  | u :: t, path, now =>
      if u.file = path then { u with date := now } :: t
      else u :: updateFirstDate t path now

/-- `fetch_card_set.py` `update_manifest`, lines 147-165: one section's
update — append a fresh `{file, date}` record when no record with this
`file` exists, otherwise refresh the date of the existing record. -/
def sectionStep (updates : List UpdateRecord) (path now : String) :
    List UpdateRecord :=
  if updates.any (fun u => u.file = path) then updateFirstDate updates path now
  else updates ++ [⟨path, now⟩]

/-- `fetch_card_set.py` `update_manifest`, lines 107-176: bump the version
(tolerantly), stamp `lastUpdated`, then run `sectionStep` on the three
always-updated sections and, when an archetype file was created, on the
archetypes section. -/
def fetchUpdateManifest (m : Manifest) (now name : String)
    (createdArchetypeFile : Bool) : Manifest :=
  let m := { m with version := increment_version m.version, lastUpdated := now }
  let m := { m with cards := { m.cards with
    updates := sectionStep m.cards.updates ("cards/" ++ name ++ ".json") now } }
  let m := { m with collections := { m.collections with
    updates := sectionStep m.collections.updates ("collections/" ++ name ++ ".json") now } }
  let m := { m with collectionCards := { m.collectionCards with
    updates := sectionStep m.collectionCards.updates ("collection-cards/" ++ name ++ ".json") now } }
  if createdArchetypeFile then
    { m with archetypes := { m.archetypes with
      updates := sectionStep m.archetypes.updates ("archetypes/" ++ name ++ ".json") now } }
  else m

/-- `True` when no two records of the list share a `file` value. -/
def filesNodup (l : List UpdateRecord) : Bool :=
  (l.map (fun u => u.file)).Nodup

/-! ## Archetype id assignment -/

/-- An archetype record as stored in the archetype JSON files
(`fetch_card_set.py` writes string ids). -/
structure ArchetypeF where
  id : String
  name : String
  nameEn : String
deriving DecidableEq, Repr

/-- An archetype record as built by `auto_sync.py`
`create_archetype_structure` (integer ids). -/
structure ArchetypeA where
  id : Nat
  name : String
  nameEn : String
deriving DecidableEq, Repr

/-- `fetch_card_set.py` `save_archetype_to_file`, lines 48-56: the largest
integer id found in ONE archetype file (unparsable ids are skipped, the
running maximum starts at 0). -/
def maxIdInFile (l : List ArchetypeF) : Int :=
  l.foldl (fun m a =>
    match pyToInt? a.id with
    | some k => max m k
    | none => m) 0

/-- `auto_sync.py` `get_max_archetype_id`, lines 79-100: the largest id
across ALL archetype files. -/
def getMaxArchetypeId (files : List (List ArchetypeF)) : Int :=
  files.foldl (fun m f => max m (maxIdInFile f)) 0

/-- `fetch_card_set.py` `save_archetype_to_file`, lines 30-73: if the
`nameEn` is already present in the target file the file is unchanged;
otherwise a record with id `str(max_id_in_this_file + 1)` is appended. -/
def saveArchetypeToFile (archetypes : List ArchetypeF) (nameEn : String) :
    List ArchetypeF :=
  if archetypes.any (fun a => a.nameEn = nameEn) then archetypes
  else archetypes ++ [⟨toString (maxIdInFile archetypes + 1), nameEn, nameEn⟩]

/-- `auto_sync.py` `create_archetype_structure`, lines 493-508: each name
of the batch increments the running `max_archetype_id` and receives it as
its id. -/
def createArchetypeStructure : List String → Nat → List ArchetypeA
  | [], _ => []
  | n :: t, maxId => ⟨maxId + 1, n, n⟩ :: createArchetypeStructure t (maxId + 1)

/-! ## Raw remote cards and `process_new_set` -/

/-- One entry of a remote card's `card_sets` list. -/
structure CardSetInfo where
  set_name : String
  set_code : String
deriving DecidableEq, Repr

/-- The fields of a remote API card object used by the modelled logic
(`id` as its string form `str(card['id'])`; passthrough display fields
are not modelled). -/
structure RawCard where
  id : String
  card_type : String
  typeline : String
  archetype : String
  card_sets : List CardSetInfo
deriving DecidableEq, Repr

/-- Python's `str.strip` (whitespace trimming) on the archetype field. -/
def pyStrip (s : String) : String :=
  ⟨((s.toList.dropWhile Char.isWhitespace).reverse.dropWhile
      Char.isWhitespace).reverse⟩

/-- `auto_sync.py` `extract_unique_archetypes`, lines 480-491: the
distinct non-empty archetype names of the fetched cards that are not
already known (the Python `set` iteration order is unspecified; only
membership and emptiness of the result are relied upon). -/
def extractUniqueArchetypes (cards : List RawCard) (existing : List String) :
    List String :=
  ((cards.map fun c => pyStrip c.archetype).filter fun a =>
    a ≠ "" ∧ a ∉ existing).dedup

/-- The value returned by `auto_sync.py` `process_new_set`: Python lets a
function return either a bare boolean (line 597) or a 2-tuple of booleans
(lines 524 and 601), so the result type is a sum of both shapes. -/
inductive ProcResult where
  | single : Bool → ProcResult
  | pair : Bool → Bool → ProcResult
deriving DecidableEq, Repr

/-- `auto_sync.py` `process_new_set`, lines 510-601, restricted to its
result value (file writes and image downloads do not influence it): an
empty card fetch returns the tuple `(False, archetype_created)`; the
successful path computes `archetype_created` but then executes
`return True` (line 597) — a bare boolean, not a tuple. -/
def processNewSet (cards : List RawCard) (existingArchetypes : List String)
    (_dryRun : Bool) : ProcResult :=
  if cards.isEmpty then ProcResult.pair false false
  else
    let _archetypeFlag :=
      !(extractUniqueArchetypes cards existingArchetypes).isEmpty
    ProcResult.single true

/-- `auto_sync.py` `run_sync`, line 768: the caller unpacks the result as
`success, has_archetypes = ...`, which succeeds only on a 2-tuple; a bare
boolean raises `TypeError` (modelled as `none`). -/
def unpackPair : ProcResult → Option (Bool × Bool)
  | ProcResult.pair a b => some (a, b)
  | ProcResult.single _ => none

/-! ## Image downloads

The file system is an association list from path to content; the network
is a fetch-and-transcode function passed in as a parameter.  Each
download operation returns the new file system together with the number
of network requests it performed. -/

/-- File system: path ↦ content. -/
abbrev FS := List (String × String)

/-- `os.path.exists` / reading: look a path up. -/
def fsLookup (fs : FS) (p : String) : Option String :=
  (fs.find? fun e => e.1 = p).map fun e => e.2

/-- Writing a file: overwrite the entry if present, else add it. -/
def fsWrite (fs : FS) (p c : String) : FS :=
  if fs.any (fun e => e.1 = p) then
    fs.map fun e => if e.1 = p then (p, c) else e
  else fs ++ [(p, c)]

/-- Target path of a card image, `auto_sync.py` line 407. -/
def cardImagePath (cardId : String) : String :=
  "cards-image/" ++ cardId ++ ".webp"

/-- `auto_sync.py` `download_card_image`, lines 403-435: if the target
file already exists the function returns immediately (no request);
otherwise it fetches the URL, transcodes, and writes the file (one
request). -/
def downloadCardImage (fs : FS) (cardId imageUrl : String)
    (fetchConvert : String → String) : FS × Nat :=
  let path := cardImagePath cardId
  if (fsLookup fs path).isSome then (fs, 0)
  else (fsWrite fs path (fetchConvert imageUrl), 1)

/-- `download_card_images.py`, line 16: `card_id.lstrip('0') or '0'`. -/
def cleanIdForUrl (cardId : String) : String :=
  let t := cardId.toList.dropWhile fun c => c = '0'
  if t.isEmpty then "0" else ⟨t⟩

/-- `download_card_images.py` `download_and_resize_image`, lines 10-63:
always fetches the URL, transcodes, and writes the target file — there is
no existence check. -/
def downloadAndResizeImage (fs : FS) (cardId outputDir : String)
    (fetchProcess : String → String) : FS × Nat :=
  let url := "https://images.ygoprodeck.com/images/cards/" ++
    cleanIdForUrl cardId ++ ".jpg"
  let path := outputDir ++ "/" ++ cardId ++ ".webp"
  (fsWrite fs path (fetchProcess url), 1)

/-! ## Collection-card identifiers (`auto_sync.py`
`create_collection_cards_structure`) -/

/-- Python's `str.upper` (ASCII, as used on set codes). -/
def pyUpper (s : String) : String :=
  ⟨s.toList.map Char.toUpper⟩

/-- Python's `f"{n:03d}"`: zero-pad to (at least) three digits. -/
def pad3 (n : Nat) : String :=
  if n < 10 then "00" ++ toString n
  else if n < 100 then "0" ++ toString n
  else toString n

/-- Replace every non-overlapping occurrence of the non-empty pattern
`old` (left to right), as Python's `str.replace` does; the `skip`
counter carries the number of already-matched characters still to be
consumed. -/
def replaceAux (old new : List Char) : List Char → Nat → List Char
  | [], _ => []
  | _ :: t, skip + 1 => replaceAux old new t skip
  | c :: t, 0 =>
      if old.isPrefixOf (c :: t) then
        new ++ replaceAux old new t (old.length - 1)
      else c :: replaceAux old new t 0

/-- Python's `s.replace("-EN", "-FR")`. -/
def replaceENwithFR (s : String) : String :=
  ⟨replaceAux ['-', 'E', 'N'] ['-', 'F', 'R'] s.toList 0⟩

/-- The per-entry match test of `create_collection_cards_structure`,
lines 318-319: the entry's normalized (lower-cased) set name equals the
lower-cased target code, or the entry's set code starts with the target
code (both lower-cased). -/
def matchesTarget (setCode : String) (e : CardSetInfo) : Bool :=
  normalize_set_name (pyLower e.set_name) = pyLower setCode
  || (pyLower setCode).toList.isPrefixOf (pyLower e.set_code).toList

/-- The identifier assigned to the card at (1-based) position `counter`,
lines 306-333: from the first matching `card_sets` entry, the entry's
code with `-EN` replaced by `-FR` when the code contains `-EN`; in every
other case (a matching entry without `-EN`, or no matching entry) the
synthetic `<SETCODE>-FR<NNN>`. -/
def assignFrId (setCode : String) (card : RawCard) (counter : Nat) : String :=
  match card.card_sets.find? (matchesTarget setCode) with
  | some e =>
      if substr "-EN" e.set_code then replaceENwithFR e.set_code
      else pyUpper setCode ++ "-FR" ++ pad3 counter
  | none => pyUpper setCode ++ "-FR" ++ pad3 counter

/-- A collection-cards entry `{id, cardId, collectionId}`. -/
structure CollectionCard where
  id : String
  cardId : String
  collectionId : String
deriving DecidableEq, Repr

/-- The card loop of `create_collection_cards_structure` with its 1-based
`card_counter`. -/
def collectionCardsLoop (setCode : String) :
    List RawCard → Nat → List CollectionCard
  | [], _ => []
  | c :: t, counter =>
      ⟨assignFrId setCode c counter, assignFrId setCode c counter,
        pyUpper setCode⟩ :: collectionCardsLoop setCode t (counter + 1)

/-- `auto_sync.py` `create_collection_cards_structure`, lines 292-389:
`card_counter` starts at 1; in dry-run mode the function returns `None`
after printing; the `collection_id` parameter is unused by the produced
records, which carry `set_code.upper()` as `collectionId`. -/
def createCollectionCardsStructure (cards : List RawCard) (setCode : String)
    (_collectionId : String) (dryRun : Bool) : Option (List CollectionCard) :=
  if dryRun then none
  else some (collectionCardsLoop setCode cards 1)

/-! ## Persistence ordering in `fetch_card_set.py` -/

/-- The collection-cards entry contributed by one card, `fetch_card_set.py`
lines 300-315: the first `card_sets` entry whose `set_name` equals the
requested set name exactly supplies its `set_code` as the entry id; a
falsy (empty) code or no matching entry contributes nothing — there is no
synthetic fallback in this script. -/
def mkCollectionCardEntry (requested collectionId : String)
    (card : RawCard) : Option CollectionCard :=
  match card.card_sets.find? (fun e => e.set_name = requested) with
  | some e => if e.set_code = "" then none else some ⟨e.set_code, card.id, collectionId⟩
  | none => none

/-- Value of a digit list (most significant first). -/
def natOfDigits (l : List Char) : Nat :=
  l.foldl (fun n c => n * 10 + (c.toNat - '0'.toNat)) 0

/-- Scan for the first `-` that is directly followed by a digit and
return the value of the maximal digit run after it. -/
def extractNumAux : List Char → Option Nat
  | [] => none
  | c :: t =>
      if c = '-' ∧ (t.headD 'x').isDigit then
        some (natOfDigits (t.takeWhile Char.isDigit))
      else extractNumAux t

/-- `fetch_card_set.py` `extract_number`, lines 318-323:
`re.search(r'-(\d+)', id)`, defaulting to 0 when there is no match. -/
def extract_number (s : String) : Nat :=
  (extractNumAux s.toList).getD 0

/-- The sort of `collection_cards`, line 326.  Python's `list.sort` is a
stable sort by the key; `List.insertionSort` with the induced `≤` on keys
is stable as well, and a stable sort result is unique, so the two agree
elementwise. -/
def sortCollectionCards (l : List CollectionCard) : List CollectionCard :=
  List.insertionSort (fun a b => extract_number a.id ≤ extract_number b.id) l

/-- `fetch_card_set.py` lines 330-336: the position of a card id in the
sorted collection-cards list, where later entries overwrite earlier dict
assignments (last index wins) and absent ids default to 999999. -/
def getPos (l : List CollectionCard) (cardId : String) : Nat :=
  match (l.enum.filter fun p => p.2.cardId = cardId).getLast? with
  | some p => p.1
  | none => 999999

/-- The sorted, persisted collection-cards list of one `fetch_card_set`
run, as a function of the merged fetched card list. -/
def fetchCollectionCards (cards : List RawCard)
    (requested collectionId : String) : List CollectionCard :=
  sortCollectionCards (cards.filterMap (mkCollectionCardEntry requested collectionId))

/-- `fetch_card_set.py` line 338: the formatted cards are re-sorted by
their id's position in the sorted collection-cards list.  A formatted
card's `id` equals the raw card's `str(id)`, and sorting only permutes,
so the raw cards stand in for the formatted ones. -/
def fetchSortedCards (cards : List RawCard)
    (requested collectionId : String) : List RawCard :=
  let cc := fetchCollectionCards cards requested collectionId
  List.insertionSort (fun a b => getPos cc a.id ≤ getPos cc b.id) cards

/-! ## Theorems -/

/-- C1, counterexample: the claim asserts that in card type
classification every Spell card yields `"Magic"` and that Synchro takes
precedence over Effect; the classifier of
`auto_sync.create_cards_structure` (one of the two classification sites
the claim covers) maps the literal input `"Spell Card"` to `"Spell"`,
not `"Magic"`, and classifies `"Synchro Pendulum Effect Monster"` as
`"Effect"` because it checks Effect before Synchro. -/
theorem C1_classify_counterexample :
    classifyAutoSync "Spell Card" = "Spell" ∧
    ("Spell" : String) ≠ "Magic" ∧
    classifyAutoSync "Synchro Pendulum Effect Monster" = "Effect" ∧
    ("Effect" : String) ≠ "Synchro" := by
  exact ⟨by decide, by decide, by decide, by decide⟩

/-- C1, amended: the claimed classification (Spell/Trap short-circuit to
`Magic`/`Trap`, then monster precedence Synchro > Fusion > Xyz > Link >
Effect > Normal, with the three literal examples) is the one implemented
by `fetch_card_set.py`; the classifier of
`auto_sync.create_cards_structure` instead checks Normal > Effect >
Fusion > Synchro > Xyz > Link > Ritual > Spell > Trap with no
Spell/Trap short-circuit, mapping Spell cards to `"Spell"` and
classifying `"Synchro Pendulum Effect Monster"` as `"Effect"`. -/
theorem C1_classify_amended (ct tl : String) :
    (substr "Spell" ct = true → classifyFetch ct tl = "Magic") ∧
    (substr "Spell" ct = false → substr "Trap" ct = true →
      classifyFetch ct tl = "Trap") ∧
    (substr "Spell" ct = false → substr "Trap" ct = false →
      substr "Synchro" tl = true → classifyFetch ct tl = "Synchro") ∧
    (substr "Spell" ct = false → substr "Trap" ct = false →
      substr "Synchro" tl = false → substr "Fusion" tl = true →
      classifyFetch ct tl = "Fusion") ∧
    (substr "Spell" ct = false → substr "Trap" ct = false →
      substr "Synchro" tl = false → substr "Fusion" tl = false →
      substr "Xyz" tl = true → classifyFetch ct tl = "Xyz") ∧
    (substr "Spell" ct = false → substr "Trap" ct = false →
      substr "Synchro" tl = false → substr "Fusion" tl = false →
      substr "Xyz" tl = false → substr "Link" tl = true →
      classifyFetch ct tl = "Link") ∧
    (substr "Spell" ct = false → substr "Trap" ct = false →
      substr "Synchro" tl = false → substr "Fusion" tl = false →
      substr "Xyz" tl = false → substr "Link" tl = false →
      substr "Effect" tl = true → classifyFetch ct tl = "Effect") ∧
    (substr "Spell" ct = false → substr "Trap" ct = false →
      substr "Synchro" tl = false → substr "Fusion" tl = false →
      substr "Xyz" tl = false → substr "Link" tl = false →
      substr "Effect" tl = false → classifyFetch ct tl = "Normal") ∧
    classifyFetch "Synchro Tuner Monster" "Synchro Tuner Monster" = "Synchro" ∧
    classifyFetch "Normal Monster" "Normal Monster" = "Normal" ∧
    classifyFetch "Spell Card" "Spell Card" = "Magic" ∧
    classifyAutoSync "Spell Card" = "Spell" ∧
    classifyAutoSync "Trap Card" = "Trap" ∧
    classifyAutoSync "Synchro Pendulum Effect Monster" = "Effect" := by
  refine ⟨?_, ?_, ?_, ?_, ?_, ?_, ?_, ?_,
    by decide, by decide, by decide, by decide, by decide, by decide⟩ <;>
    intros <;> simp [classifyFetch, *]

/-- C1, witness for the amended theorem: instantiated at the literal
Spell-card input. -/
theorem C1_classify_amended_witness :
    substr "Spell" "Spell Card" = true ∧
    classifyFetch "Spell Card" "Ritual Monster" = "Magic" :=
  ⟨by decide, (C1_classify_amended "Spell Card" "Ritual Monster").1 (by decide)⟩

/-- C3: on the successful path `process_new_set` returns the bare boolean
`True` (line 597), not a 2-tuple, so the caller `run_sync` cannot unpack
it into `success, has_archetypes` (the unpacking raises, modelled by
`unpackPair` returning `none`); only the empty-fetch and exception paths
return 2-tuples. -/
theorem C3_process_new_set_return_shape :
    processNewSet [⟨"46986414", "Normal Monster", "Normal Monster", "", []⟩]
        [] false = ProcResult.single true ∧
    unpackPair (processNewSet
        [⟨"46986414", "Normal Monster", "Normal Monster", "", []⟩] [] false)
      = none ∧
    processNewSet [] [] false = ProcResult.pair false false ∧
    unpackPair (processNewSet [] [] false) = some (false, false) := by
  exact ⟨rfl, rfl, rfl, rfl⟩

/-- C7, counterexample: the claim asserts that every image download skips
work when the target file exists; `download_and_resize_image` of
`download_card_images.py` (one of the two cited download operations) has
no existence check: on a file system already holding the target file it
still performs one network request and overwrites the file's content. -/
theorem C7_image_download_counterexample :
    downloadAndResizeImage [("cards-image/42.webp", "old")] "42" "cards-image"
        (fun _ => "new")
      = ([("cards-image/42.webp", "new")], 1) ∧
    ("new" : String) ≠ "old" := by
  exact ⟨rfl, by decide⟩

/-- C7, amended: `auto_sync.download_card_image` is idempotent — when the
target file already exists it performs no network request and returns
the file system unchanged — while
`download_card_images.download_and_resize_image` performs exactly one
network request on every invocation, existing target file or not. -/
theorem C7_image_download_amended (fs : FS)
    (cardId imageUrl outputDir : String) (f g : String → String)
    (h : (fsLookup fs (cardImagePath cardId)).isSome = true) :
    downloadCardImage fs cardId imageUrl f = (fs, 0) ∧
    (downloadAndResizeImage fs cardId outputDir g).2 = 1 := by
  constructor
  · simp [downloadCardImage, h]
  · rfl

/-- C7, witness: the amended theorem applied to a one-file file system
that already holds the card image. -/
theorem C7_image_download_amended_witness :
    (fsLookup [("cards-image/1.webp", "x")] (cardImagePath "1")).isSome = true ∧
    downloadCardImage [("cards-image/1.webp", "x")] "1" "u" (fun _ => "y")
      = ([("cards-image/1.webp", "x")], 0) :=
  ⟨by decide,
    (C7_image_download_amended [("cards-image/1.webp", "x")] "1" "u" "d"
      (fun _ => "y") (fun _ => "y") (by decide)).1⟩

/-- C9: `auto_sync.create_cards_structure` type classification is total
with values in the closed nine-element set, and a type string containing
none of the checked keywords falls through to the default `"Normal"`. -/
theorem C9_type_closed_set (ct : String) :
    classifyAutoSync ct ∈
      ["Normal", "Effect", "Fusion", "Synchro", "Xyz", "Link", "Ritual",
        "Spell", "Trap"] ∧
    (substr "Normal" ct = false → substr "Effect" ct = false →
      substr "Fusion" ct = false → substr "Synchro" ct = false →
      substr "Xyz" ct = false → substr "Link" ct = false →
      substr "Ritual" ct = false → substr "Spell" ct = false →
      substr "Trap" ct = false → classifyAutoSync ct = "Normal") := by
  constructor
  · unfold classifyAutoSync
    split_ifs <;> simp
  · intros
    simp [classifyAutoSync, *]

/-- C9, witness: a keyword-free type string (`"Token"`) is classified
`"Normal"`. -/
theorem C9_type_closed_set_witness :
    substr "Normal" "Token" = false ∧ classifyAutoSync "Token" = "Normal" :=
  ⟨by decide,
    (C9_type_closed_set "Token").2 (by decide) (by decide) (by decide)
      (by decide) (by decide) (by decide) (by decide) (by decide) (by decide)⟩

/-- The ids produced by `create_archetype_structure` continue from the
given running maximum, in batch order. -/
theorem createArchetypeStructure_ids (names : List String) (maxId : Nat) :
    (createArchetypeStructure names maxId).map (fun a => a.id)
      = (List.range names.length).map fun i => maxId + 1 + i := by
  induction names generalizing maxId with
  | nil => rfl
  | cons n t ih =>
      simp only [createArchetypeStructure, List.map_cons, ih,
        List.length_cons, List.range_succ_eq_map, List.map_map]
      refine List.cons_eq_cons.mpr ⟨by simp, List.map_congr_left fun i _ => ?_⟩
      simp only [Function.comp_apply]
      omega

/-- C4, counterexample: the claim asserts new archetype ids continue from
one plus the highest id across ALL existing archetype files;
`fetch_card_set.save_archetype_to_file` (one of the two cited assignment
sites) looks only at the single target file, so with an existing file
holding max id 7 and an empty target file the newly discovered archetype
receives id `"1"`, not `8`. -/
theorem C4_archetype_id_counterexample :
    getMaxArchetypeId [[⟨"7", "Blue-Eyes", "Blue-Eyes"⟩], []] = 7 ∧
    saveArchetypeToFile [] "Shaddoll" = [⟨"1", "Shaddoll", "Shaddoll"⟩] ∧
    ("1" : String) ≠ "8" := by
  exact ⟨by decide, by decide, by decide⟩

/-- C4, amended: `auto_sync.create_archetype_structure` assigns each
batch name an id continuing monotonically from one plus the running
maximum taken across all existing archetype files, in batch order and
pairwise distinct; `fetch_card_set.save_archetype_to_file` instead
continues from one plus the highest id found in the single target file
only (as a decimal string), appending the record only when the `nameEn`
is not yet in that file. -/
theorem C4_archetype_id_amended (names : List String) (maxId : Nat)
    (file : List ArchetypeF) (nameEn : String)
    (habsent : (file.any fun a => a.nameEn = nameEn) = false) :
    ((createArchetypeStructure names maxId).map (fun a => a.id)
      = (List.range names.length).map fun i => maxId + 1 + i) ∧
    ((createArchetypeStructure names maxId).map (fun a => a.id)).Nodup ∧
    ((createArchetypeStructure names maxId).map (fun a => a.nameEn) = names) ∧
    saveArchetypeToFile file nameEn
      = file ++ [⟨toString (maxIdInFile file + 1), nameEn, nameEn⟩] := by
  refine ⟨createArchetypeStructure_ids names maxId, ?_, ?_, ?_⟩
  · rw [createArchetypeStructure_ids]
    exact (List.nodup_range _).map fun a b h => by omega
  · induction names generalizing maxId with
    | nil => rfl
    | cons n t ih => simp [createArchetypeStructure, ih]
  · simp [saveArchetypeToFile, habsent]

/-- C4, witness: three new names over running maximum 7 receive ids
8, 9, 10. -/
theorem C4_archetype_id_amended_witness :
    (([] : List ArchetypeF).any fun a => a.nameEn = "Shaddoll") = false ∧
    (createArchetypeStructure ["A", "B", "C"] 7).map (fun a => a.id)
      = (List.range 3).map fun i => 7 + 1 + i :=
  ⟨by decide, (C4_archetype_id_amended ["A", "B", "C"] 7 [] "Shaddoll"
    (by decide)).1⟩

/-- C5: `compare_sets` reports a remote set as new iff none of its four
candidate codes (raw lower-cased set code, normalized set code,
normalized set name, simplified set name) is among the pre-collected
local identifiers; in particular a remote set whose case-folded raw set
code is a local identifier is never reported as new. -/
theorem C5_compare_sets (existing : List String) (apiSets : List ApiSet)
    (a : ApiSet) (ha : a ∈ apiSets) :
    ((a, pyLower a.set_code) ∈ compareSets existing apiSets ↔
      ∀ c ∈ possibleCodes a, c ∉ existing) ∧
    (pyLower a.set_code ∈ existing →
      ∀ p ∈ compareSets existing apiSets, p.1 ≠ a) := by
  constructor
  · constructor
    · intro hmem
      rw [compareSets, List.mem_filterMap] at hmem
      obtain ⟨b, -, hfb⟩ := hmem
      simp at hfb
      obtain ⟨hnone, hba, -⟩ := hfb
      subst hba
      exact hnone
    · intro hall
      rw [compareSets, List.mem_filterMap]
      refine ⟨a, ha, ?_⟩
      simp
      exact hall
  · intro hin p hp hpa
    rw [compareSets, List.mem_filterMap] at hp
    obtain ⟨b, -, hfb⟩ := hp
    simp at hfb
    obtain ⟨hnone, hbp⟩ := hfb
    have hb : b = a := by rw [← hbp] at hpa; exact hpa
    subst hb
    exact hnone (pyLower b.set_code) (by simp [possibleCodes]) hin

/-- C5, witness: a single remote set against an empty local inventory. -/
theorem C5_compare_sets_witness :
    (⟨"Legend of Blue Eyes", "LOB"⟩ : ApiSet) ∈
      [(⟨"Legend of Blue Eyes", "LOB"⟩ : ApiSet)] ∧
    (((⟨"Legend of Blue Eyes", "LOB"⟩ : ApiSet),
        pyLower (⟨"Legend of Blue Eyes", "LOB"⟩ : ApiSet).set_code) ∈
          compareSets [] [⟨"Legend of Blue Eyes", "LOB"⟩] ↔
      ∀ c ∈ possibleCodes ⟨"Legend of Blue Eyes", "LOB"⟩,
        c ∉ ([] : List String)) :=
  ⟨by decide,
    (C5_compare_sets [] [⟨"Legend of Blue Eyes", "LOB"⟩]
      ⟨"Legend of Blue Eyes", "LOB"⟩ (by decide)).1⟩

/-- A fresh manifest as synthesized by both updaters when no
`manifest.json` exists yet (`auto_sync.py` lines 613-635). -/
def demoManifest : Manifest :=
  ⟨"1.0.0", "",
   ⟨"cards/base.json", []⟩,
   ⟨"collections/base.json", []⟩,
   ⟨"collection-cards/base.json", []⟩,
   ⟨"archetypes/base.json", []⟩⟩

/-- C2, counterexample: `auto_sync.update_manifest` skips a record only
when the exact `{file, date}` pair is already present, so two invocations
with the same materialized-set list but different timestamps produce a
`cards.updates` list with two entries sharing `file = "cards/lob.json"`,
falsifying both the append condition and the claimed idempotence. -/
theorem C2_manifest_counterexample :
    ((autoSyncUpdateManifest demoManifest "T1" ["lob"] []).bind fun m1 =>
        autoSyncUpdateManifest m1 "T2" ["lob"] []).map
          (fun m => m.cards.updates)
      = some [⟨"cards/lob.json", "T1"⟩, ⟨"cards/lob.json", "T2"⟩] ∧
    ((autoSyncUpdateManifest demoManifest "T1" ["lob"] []).bind fun m1 =>
        autoSyncUpdateManifest m1 "T2" ["lob"] []).map
          (fun m => filesNodup m.cards.updates)
      = some false := by
  exact ⟨by decide, by decide⟩

/-- `updateFirstDate` only touches dates, never files. -/
theorem map_file_updateFirstDate (l : List UpdateRecord) (path now : String) :
    (updateFirstDate l path now).map (fun u => u.file)
      = l.map fun u => u.file := by
  induction l with
  | nil => rfl
  | cons u t ih =>
      by_cases h : u.file = path <;> simp [updateFirstDate, h, ih]

/-- The `file` values after one `sectionStep`: unchanged when the path is
already present, extended by the path otherwise. -/
theorem sectionStep_files (l : List UpdateRecord) (path now : String) :
    (sectionStep l path now).map (fun u => u.file)
      = if (l.any fun u => u.file = path) = true then l.map (fun u => u.file)
        else (l.map fun u => u.file) ++ [path] := by
  by_cases h : (l.any fun u => u.file = path) = true <;>
    simp [sectionStep, h, map_file_updateFirstDate]

/-- `sectionStep` preserves distinctness of the `file` values. -/
theorem nodup_sectionStep (l : List UpdateRecord) (path now : String)
    (h : (l.map fun u => u.file).Nodup) :
    ((sectionStep l path now).map fun u => u.file).Nodup := by
  rw [sectionStep_files]
  split
  · exact h
  · rename_i hany
    simp only [Bool.not_eq_true] at hany
    rw [List.any_eq_false] at hany
    have hnotin : path ∉ l.map fun u => u.file := by
      intro hmem
      obtain ⟨u, hu, hfu⟩ := List.mem_map.mp hmem
      exact hany u hu (by simpa using hfu)
    simp [List.nodup_append, h, hnotin]

/-- The `cards` section of one `fetchUpdateManifest` run. -/
theorem fetchUpdateManifest_cards (m : Manifest) (t name : String) (arch : Bool) :
    (fetchUpdateManifest m t name arch).cards.updates
      = sectionStep m.cards.updates ("cards/" ++ name ++ ".json") t := by
  cases arch <;> rfl

/-- The `collections` section of one `fetchUpdateManifest` run. -/
theorem fetchUpdateManifest_collections (m : Manifest) (t name : String) (arch : Bool) :
    (fetchUpdateManifest m t name arch).collections.updates
      = sectionStep m.collections.updates ("collections/" ++ name ++ ".json") t := by
  cases arch <;> rfl

/-- The `collectionCards` section of one `fetchUpdateManifest` run. -/
theorem fetchUpdateManifest_collectionCards (m : Manifest) (t name : String) (arch : Bool) :
    (fetchUpdateManifest m t name arch).collectionCards.updates
      = sectionStep m.collectionCards.updates ("collection-cards/" ++ name ++ ".json") t := by
  cases arch <;> rfl

/-- The `archetypes` section of one `fetchUpdateManifest` run. -/
theorem fetchUpdateManifest_archetypes (m : Manifest) (t name : String) (arch : Bool) :
    (fetchUpdateManifest m t name arch).archetypes.updates
      = if arch then
          sectionStep m.archetypes.updates ("archetypes/" ++ name ++ ".json") t
        else m.archetypes.updates := by
  cases arch <;> rfl

/-- C2, amended: the claimed behaviour — append a `{file, date}` record
only when no existing entry of the section has the same `file`, hence no
duplicate `file` entries after repeated identical invocations — holds for
the `fetch_card_set.update_manifest` variant (which also refreshes the
date of an existing record); the `auto_sync.update_manifest` variant
skips a record only when the identical `{file, date}` pair is present, so
its duplicate-freedom does not survive invocations at different
timestamps. -/
theorem C2_manifest_amended (m : Manifest) (t1 t2 name : String) (arch : Bool)
    (hc : (m.cards.updates.map fun u => u.file).Nodup)
    (hl : (m.collections.updates.map fun u => u.file).Nodup)
    (hcc : (m.collectionCards.updates.map fun u => u.file).Nodup)
    (ha : (m.archetypes.updates.map fun u => u.file).Nodup) :
    (∀ (l : List UpdateRecord) (path now : String),
      ((l.any fun u => u.file = path) = false →
        sectionStep l path now = l ++ [⟨path, now⟩]) ∧
      ((l.any fun u => u.file = path) = true →
        (sectionStep l path now).map (fun u => u.file)
          = l.map fun u => u.file)) ∧
    (((fetchUpdateManifest (fetchUpdateManifest m t1 name arch) t2 name
        arch).cards.updates.map fun u => u.file).Nodup ∧
     ((fetchUpdateManifest (fetchUpdateManifest m t1 name arch) t2 name
        arch).collections.updates.map fun u => u.file).Nodup ∧
     ((fetchUpdateManifest (fetchUpdateManifest m t1 name arch) t2 name
        arch).collectionCards.updates.map fun u => u.file).Nodup ∧
     ((fetchUpdateManifest (fetchUpdateManifest m t1 name arch) t2 name
        arch).archetypes.updates.map fun u => u.file).Nodup) := by
  constructor
  · intro l path now
    constructor
    · intro h
      simp [sectionStep, h]
    · intro h
      rw [sectionStep_files, if_pos h]
  · refine ⟨?_, ?_, ?_, ?_⟩
    · rw [fetchUpdateManifest_cards, fetchUpdateManifest_cards]
      exact nodup_sectionStep _ _ _ (nodup_sectionStep _ _ _ hc)
    · rw [fetchUpdateManifest_collections, fetchUpdateManifest_collections]
      exact nodup_sectionStep _ _ _ (nodup_sectionStep _ _ _ hl)
    · rw [fetchUpdateManifest_collectionCards, fetchUpdateManifest_collectionCards]
      exact nodup_sectionStep _ _ _ (nodup_sectionStep _ _ _ hcc)
    · rw [fetchUpdateManifest_archetypes, fetchUpdateManifest_archetypes]
      cases arch
      · simpa using ha
      · simpa using nodup_sectionStep _ _ _ (nodup_sectionStep _ _ _ ha)

/-- C2, witness: the amended theorem at the fresh manifest, with both
invocations at distinct timestamps. -/
theorem C2_manifest_amended_witness :
    (demoManifest.cards.updates.map fun u => u.file).Nodup ∧
    ((fetchUpdateManifest (fetchUpdateManifest demoManifest "T1" "lob" true)
        "T2" "lob" true).cards.updates.map fun u => u.file).Nodup :=
  ⟨by decide,
    (C2_manifest_amended demoManifest "T1" "T2" "lob" true (by decide)
      (by decide) (by decide) (by decide)).2.1⟩

/-- `autoSyncAddSet` never touches the version. -/
theorem autoSyncAddSet_version (now : String) (swa : List String)
    (acc : Manifest) (code : String) :
    (autoSyncAddSet now swa acc code).version = acc.version := by
  unfold autoSyncAddSet
  split <;> rfl

/-- `autoSyncAddSet` never touches the timestamp. -/
theorem autoSyncAddSet_lastUpdated (now : String) (swa : List String)
    (acc : Manifest) (code : String) :
    (autoSyncAddSet now swa acc code).lastUpdated = acc.lastUpdated := by
  unfold autoSyncAddSet
  split <;> rfl

/-- The per-set loop of `auto_sync.update_manifest` leaves the version
and the timestamp of its accumulator unchanged, whatever the set list. -/
theorem autoSyncFold_version (now : String) (swa : List String) :
    ∀ (sets : List String) (acc : Manifest),
      ((sets.foldl (autoSyncAddSet now swa) acc).version = acc.version ∧
       (sets.foldl (autoSyncAddSet now swa) acc).lastUpdated
         = acc.lastUpdated)
  | [], _ => ⟨rfl, rfl⟩
  | code :: t, acc => by
      have ih := autoSyncFold_version now swa t (autoSyncAddSet now swa acc code)
      simp only [List.foldl_cons]
      exact ⟨ih.1.trans (autoSyncAddSet_version now swa acc code),
        ih.2.trans (autoSyncAddSet_lastUpdated now swa acc code)⟩

/-- The version of one `fetchUpdateManifest` run. -/
theorem fetchUpdateManifest_version (m : Manifest) (t name : String)
    (arch : Bool) :
    (fetchUpdateManifest m t name arch).version
      = increment_version m.version := by
  cases arch <;> rfl

/-- The timestamp of one `fetchUpdateManifest` run. -/
theorem fetchUpdateManifest_lastUpdated (m : Manifest) (t name : String)
    (arch : Bool) :
    (fetchUpdateManifest m t name arch).lastUpdated = t := by
  cases arch <;> rfl

/-- C6: for a well-formed `x.y.z` version, each invocation of either
manifest updater bumps the patch component by exactly 1 — once per
invocation, independent of how many sets are being recorded — and stamps
`lastUpdated` with the current time. -/
theorem C6_version_bump (m : Manifest) (now : String)
    (sets setsArch : List String) (name : String) (arch : Bool)
    (a b c : String) (n : Int)
    (hs : pySplitDot m.version = [a, b, c]) (hn : pyToInt? c = some n) :
    (autoSyncUpdateManifest m now sets setsArch).map Manifest.version
      = some (joinDot [a, b, toString (n + 1)]) ∧
    (autoSyncUpdateManifest m now sets setsArch).map Manifest.lastUpdated
      = some now ∧
    (fetchUpdateManifest m now name arch).version
      = joinDot [a, b, toString (n + 1)] ∧
    (fetchUpdateManifest m now name arch).lastUpdated = now := by
  have hai : autoIncrementVersion m.version
      = some (joinDot [a, b, toString (n + 1)]) := by
    unfold autoIncrementVersion
    rw [hs]
    simp [hn]
  have hiv : increment_version m.version = joinDot [a, b, toString (n + 1)] := by
    unfold increment_version
    rw [hs]
    simp [hn]
  refine ⟨?_, ?_, ?_, ?_⟩
  · unfold autoSyncUpdateManifest
    rw [hai]
    simp [(autoSyncFold_version now setsArch sets _).1]
  · unfold autoSyncUpdateManifest
    rw [hai]
    simp [(autoSyncFold_version now setsArch sets _).2]
  · rw [fetchUpdateManifest_version, hiv]
  · exact fetchUpdateManifest_lastUpdated m now name arch

/-- C6, witness: version `"1.0.0"` with two recorded sets becomes
`"1.0.1"`. -/
theorem C6_version_bump_witness :
    pySplitDot demoManifest.version = ["1", "0", "0"] ∧
    (autoSyncUpdateManifest demoManifest "T" ["lob", "mrd"] ["lob"]).map
        Manifest.version = some (joinDot ["1", "0", toString ((0 : Int) + 1)]) :=
  ⟨by decide,
    (C6_version_bump demoManifest "T" ["lob", "mrd"] ["lob"] "x" false
      "1" "0" "0" 0 (by decide) (by decide)).1⟩

/-- C8, counterexample: the claim says the synthetic sequential
identifier is used exactly when no printed-set entry matches; here the
card's only printed-set entry `LOB-FR055` DOES match the target code
`lob` (prefix match), yet because its code contains no `-EN` the produced
identifier is the synthetic `LOB-FR001`, not one taken from the entry. -/
theorem C8_collection_card_counterexample :
    ([(⟨"Foo", "LOB-FR055"⟩ : CardSetInfo)]).any (matchesTarget "lob") = true ∧
    createCollectionCardsStructure
        [⟨"555", "Normal Monster", "", "", [⟨"Foo", "LOB-FR055"⟩]⟩]
        "lob" "lob" false
      = some [⟨"LOB-FR001", "LOB-FR001", "LOB"⟩] ∧
    ("LOB-FR001" : String) ≠ "LOB-FR055" := by
  exact ⟨by decide, by decide, by decide⟩

/-- The collection-cards loop in closed form: the card at 0-based
position `i` is processed with counter `i + k`. -/
theorem collectionCardsLoop_eq (setCode : String) :
    ∀ (cards : List RawCard) (k : Nat),
      collectionCardsLoop setCode cards k
        = ((List.range cards.length).zip cards).map fun p =>
            ⟨assignFrId setCode p.2 (p.1 + k), assignFrId setCode p.2 (p.1 + k),
              pyUpper setCode⟩
  | [], _ => rfl
  | c :: t, k => by
      have ih := collectionCardsLoop_eq setCode t (k + 1)
      simp only [collectionCardsLoop, ih, List.length_cons,
        List.range_succ_eq_map, List.zip_cons_cons, List.map_cons,
        List.zip_map_left, List.map_map]
      refine List.cons_eq_cons.mpr ⟨by simp, ?_⟩
      refine List.map_congr_left fun p _ => ?_
      have harith : p.1 + 1 + k = p.1 + (k + 1) := by omega
      simp [Function.comp, Prod.map, harith]

/-- C8, amended: `create_collection_cards_structure` iterates with a
1-based counter; the card at 1-based position `NNN` receives the id of
its first matching printed-set entry with `-EN` rewritten to `-FR` when
that entry's code contains `-EN`, and the synthetic `<SETCODE>-FR<NNN>`
both when no printed-set entry matches and when the first matching entry
lacks `-EN`; in dry-run mode nothing is returned. -/
theorem C8_collection_card_amended (cards : List RawCard)
    (setCode cid : String) :
    (createCollectionCardsStructure cards setCode cid false
      = some (((List.range cards.length).zip cards).map fun p =>
          ⟨assignFrId setCode p.2 (p.1 + 1), assignFrId setCode p.2 (p.1 + 1),
            pyUpper setCode⟩)) ∧
    (∀ (card : RawCard) (counter : Nat),
      card.card_sets.find? (matchesTarget setCode) = none →
      assignFrId setCode card counter
        = pyUpper setCode ++ "-FR" ++ pad3 counter) ∧
    (∀ (card : RawCard) (counter : Nat) (e : CardSetInfo),
      card.card_sets.find? (matchesTarget setCode) = some e →
      substr "-EN" e.set_code = false →
      assignFrId setCode card counter
        = pyUpper setCode ++ "-FR" ++ pad3 counter) ∧
    (∀ (card : RawCard) (counter : Nat) (e : CardSetInfo),
      card.card_sets.find? (matchesTarget setCode) = some e →
      substr "-EN" e.set_code = true →
      assignFrId setCode card counter = replaceENwithFR e.set_code) ∧
    createCollectionCardsStructure cards setCode cid true = none := by
  refine ⟨?_, ?_, ?_, ?_, rfl⟩
  · unfold createCollectionCardsStructure
    rw [if_neg (by simp), collectionCardsLoop_eq]
  · intro card counter h
    simp [assignFrId, h]
  · intro card counter e h he
    simp [assignFrId, h, he]
  · intro card counter e h he
    simp [assignFrId, h, he]

/-- C8, witness: a two-card set — the first card has a matching `-EN`
printed entry (rewritten to `-FR`), the second has none and receives the
synthetic id with counter 2. -/
theorem C8_collection_card_amended_witness :
    createCollectionCardsStructure
        [⟨"1", "", "", "", [⟨"Foo", "LOB-EN005"⟩]⟩,
         ⟨"2", "", "", "", []⟩] "lob" "lob" false
      = some (((List.range 2).zip
          [⟨"1", "", "", "", [⟨"Foo", "LOB-EN005"⟩]⟩,
           ⟨"2", "", "", "", []⟩]).map fun p =>
            ⟨assignFrId "lob" p.2 (p.1 + 1), assignFrId "lob" p.2 (p.1 + 1),
              pyUpper "lob"⟩) ∧
    assignFrId "lob" ⟨"1", "", "", "", [⟨"Foo", "LOB-EN005"⟩]⟩ 1
      = "LOB-FR005" ∧
    assignFrId "lob" ⟨"2", "", "", "", []⟩ 2 = "LOB-FR002" :=
  ⟨(C8_collection_card_amended
      [⟨"1", "", "", "", [⟨"Foo", "LOB-EN005"⟩]⟩, ⟨"2", "", "", "", []⟩]
      "lob" "lob").1,
    by decide, by decide⟩

/-- Stable sorting by a `Nat` key yields a list pairwise ordered by that
key. -/
theorem pairwise_key_insertionSort {α : Type} (f : α → Nat) (l : List α) :
    (List.insertionSort (fun a b => f a ≤ f b) l).Pairwise
      fun a b => f a ≤ f b := by
  letI : IsTotal α fun a b => f a ≤ f b := ⟨fun a b => Nat.le_total (f a) (f b)⟩
  letI : IsTrans α fun a b => f a ≤ f b := ⟨fun a b c h1 h2 => Nat.le_trans h1 h2⟩
  exact List.sorted_insertionSort _ l

/-- A card id that no collection-cards entry carries is assigned the
default position 999999. -/
theorem getPos_of_no_entry (cc : List CollectionCard) (cid : String)
    (h : ∀ e ∈ cc, e.cardId ≠ cid) : getPos cc cid = 999999 := by
  unfold getPos
  have hfil : (cc.enum.filter fun p => p.2.cardId = cid) = [] := by
    rw [List.filter_eq_nil_iff]
    intro p hp
    have hmem : p.2 ∈ cc := List.getElem?_mem (List.mem_enum_iff_getElem?.mp hp)
    simpa using h p.2 hmem
  rw [hfil]
  rfl

/-- A card id carried by some collection-cards entry is assigned a
position below the length of the entry list. -/
theorem getPos_lt_of_entry (cc : List CollectionCard) (cid : String)
    (h : ∃ e ∈ cc, e.cardId = cid) : getPos cc cid < cc.length := by
  unfold getPos
  obtain ⟨e, he, hid⟩ := h
  obtain ⟨i, hi, hie⟩ := List.mem_iff_getElem.mp he
  have henum : ((i, e) : Nat × CollectionCard) ∈ cc.enum := by
    rw [List.mem_enum_iff_getElem?]
    exact List.getElem?_eq_some.mpr ⟨hi, hie⟩
  have hfil : ((i, e) : Nat × CollectionCard) ∈
      cc.enum.filter fun p => p.2.cardId = cid := by
    rw [List.mem_filter]
    exact ⟨henum, by simpa using hid⟩
  have hne : (cc.enum.filter fun p => p.2.cardId = cid) ≠ [] :=
    List.ne_nil_of_mem hfil
  rw [List.getLast?_eq_getLast _ hne]
  have hlast := List.getLast_mem hne
  have hlen : (List.getLast _ hne) ∈ cc.enum := List.mem_of_mem_filter hlast
  have h2 := List.mem_enum_iff_getElem?.mp hlen
  have h3 := List.getElem?_eq_some.mp h2
  exact h3.1

/-- C10: in `fetch_card_set`, the persisted collection-cards list is
sorted ascending by the numeric suffix extracted from each entry's
set-code id; the persisted cards list is re-sorted by each card's
position in that list, with cards that have no collection-cards entry
assigned the sentinel position 999999 and therefore placed after every
card that has one; and a card whose `card_sets` holds no entry with
`set_name` exactly equal to the requested set name contributes no
collection-cards entry at all — every persisted entry originates from an
exact-name printed-set entry, with no synthetic fallback. -/
theorem C10_fetch_persistence (cards : List RawCard) (requested cid : String)
    (hlen : cards.length ≤ 999999) :
    (fetchCollectionCards cards requested cid).Pairwise
      (fun a b => extract_number a.id ≤ extract_number b.id) ∧
    (fetchSortedCards cards requested cid).Pairwise
      (fun a b => getPos (fetchCollectionCards cards requested cid) a.id ≤
        getPos (fetchCollectionCards cards requested cid) b.id) ∧
    (∀ c : RawCard,
      (∀ e ∈ fetchCollectionCards cards requested cid, e.cardId ≠ c.id) →
      getPos (fetchCollectionCards cards requested cid) c.id = 999999) ∧
    (fetchSortedCards cards requested cid).Pairwise
      (fun a b =>
        (∃ e ∈ fetchCollectionCards cards requested cid, e.cardId = b.id) →
        ∃ e ∈ fetchCollectionCards cards requested cid, e.cardId = a.id) ∧
    (∀ k ∈ fetchCollectionCards cards requested cid,
      ∃ c ∈ cards, ∃ e ∈ c.card_sets,
        e.set_name = requested ∧ k.id = e.set_code ∧ k.cardId = c.id) ∧
    (∀ c ∈ cards, (∀ e ∈ c.card_sets, e.set_name ≠ requested) →
      mkCollectionCardEntry requested cid c = none) := by
  have hccLen : (fetchCollectionCards cards requested cid).length
      ≤ cards.length := by
    unfold fetchCollectionCards sortCollectionCards
    rw [List.length_insertionSort]
    exact List.length_filterMap_le _ _
  refine ⟨?_, ?_, ?_, ?_, ?_, ?_⟩
  · unfold fetchCollectionCards sortCollectionCards
    exact pairwise_key_insertionSort (fun a : CollectionCard => extract_number a.id) _
  · unfold fetchSortedCards
    exact pairwise_key_insertionSort
      (fun x : RawCard => getPos (fetchCollectionCards cards requested cid) x.id) cards
  · intro c h
    exact getPos_of_no_entry _ _ h
  · have hp := pairwise_key_insertionSort
      (fun x : RawCard => getPos (fetchCollectionCards cards requested cid) x.id) cards
    unfold fetchSortedCards
    refine List.Pairwise.imp ?_ hp
    intro a b hab hbent
    by_contra hna
    push_neg at hna
    have ha999 := getPos_of_no_entry (fetchCollectionCards cards requested cid)
      a.id hna
    have hblt := getPos_lt_of_entry (fetchCollectionCards cards requested cid)
      b.id hbent
    omega
  · intro k hmem
    unfold fetchCollectionCards sortCollectionCards at hmem
    rw [(List.perm_insertionSort _ _).mem_iff, List.mem_filterMap] at hmem
    obtain ⟨c, hc, hmk⟩ := hmem
    unfold mkCollectionCardEntry at hmk
    cases hfind : c.card_sets.find? (fun e => e.set_name = requested) with
    | none => rw [hfind] at hmk; simp at hmk
    | some e =>
        rw [hfind] at hmk
        by_cases hempty : e.set_code = ""
        · simp [hempty] at hmk
        · simp only [hempty, if_false, Option.some.injEq] at hmk
          refine ⟨c, hc, e, List.mem_of_find?_eq_some hfind, ?_, ?_, ?_⟩
          · simpa using List.find?_some hfind
          · rw [← hmk]
          · rw [← hmk]
  · intro c _ hnone
    unfold mkCollectionCardEntry
    have hfind : c.card_sets.find? (fun e => e.set_name = requested) = none := by
      rw [List.find?_eq_none]
      intro e he
      simpa using hnone e he
    rw [hfind]

/-- C10, witness: two fetched cards, one with an exact-name printed-set
entry and one without. -/
theorem C10_fetch_persistence_witness :
    ([(⟨"100", "", "", "", []⟩ : RawCard),
      ⟨"200", "", "", "", [⟨"SetX", "SDY-002"⟩]⟩] : List RawCard).length
        ≤ 999999 ∧
    (fetchCollectionCards
        [⟨"100", "", "", "", []⟩, ⟨"200", "", "", "", [⟨"SetX", "SDY-002"⟩]⟩]
        "SetX" "sdy").Pairwise
      (fun a b => extract_number a.id ≤ extract_number b.id) :=
  ⟨by decide,
    (C10_fetch_persistence
      [⟨"100", "", "", "", []⟩, ⟨"200", "", "", "", [⟨"SetX", "SDY-002"⟩]⟩]
      "SetX" "sdy" (by decide)).1⟩
